import Mathlib

/-!
Verification of the financial metrics engine of the evanpants repository.

The engine (`calculateMetrics` in the calculations module) is a pure
straight-line function from a property record and a loan-parameter record
to a record of derived investment metrics.  We embed it shallowly over ℚ:
every JS `number` that carries money or a percentage becomes a rational,
while `numUnits` and `loanTermYears`, which the data model fixes as
integers, become naturals.  Each intermediate `const` of the source is a
named definition so that claims about intermediates can be stated directly;
`calculateMetrics` assembles them exactly as the source's return statement
does.
-/

/-- Input record of property facts, mirroring the `PropertyData` interface
(only the numeric fields the engine reads). -/
structure PropertyData where
  listPrice : ℚ
  numUnits : ℕ
  estimatedRentPerUnit : ℚ
  unitRents : List ℚ
  propertyTaxAnnual : ℚ
  insuranceAnnual : ℚ
  hoaMonthly : ℚ
  maintenanceRate : ℚ
  vacancyRate : ℚ
  deriving Repr, DecidableEq

/-- Input record of loan parameters, mirroring the `FinancialParams`
interface. -/
structure FinancialParams where
  downPaymentPercent : ℚ
  interestRate : ℚ
  loanTermYears : ℕ
  closingCostsPercent : ℚ
  deriving Repr, DecidableEq

/-- Output record, mirroring the `CalculationResult` interface. -/
structure CalculationResult where
  grossAnnualIncome : ℚ
  effectiveGrossIncome : ℚ
  totalOperatingExpenses : ℚ
  noi : ℚ
  capRate : ℚ
  monthlyMortgagePayment : ℚ
  annualDebtService : ℚ
  annualCashFlow : ℚ
  cashOnCashReturn : ℚ
  totalInitialInvestment : ℚ
  deriving Repr, DecidableEq

/-- Monthly gross income: sum of `unitRents` when that list is non-empty,
otherwise `estimatedRentPerUnit * numUnits` (source: the `monthlyGrossIncome`
const, a guarded `reduce` with fallback). -/
def monthlyGrossIncome (p : PropertyData) : ℚ :=
  if p.unitRents.length > 0 then
    p.unitRents.foldl (fun sum rent => sum + rent) 0
  else
    p.estimatedRentPerUnit * (p.numUnits : ℚ)

/-- Potential gross annual income (`potentialGrossIncome` const). -/
def potentialGrossIncome (p : PropertyData) : ℚ :=
  monthlyGrossIncome p * 12

/-- Vacancy loss (`vacancyLoss` const). -/
def vacancyLoss (p : PropertyData) : ℚ :=
  potentialGrossIncome p * (p.vacancyRate / 100)

/-- Effective gross income (`effectiveGrossIncome` const). -/
def effectiveGrossIncome (p : PropertyData) : ℚ :=
  potentialGrossIncome p - vacancyLoss p

/-- Annual maintenance expense (`maintenanceAnnual` const): a fraction of
effective (post-vacancy) gross income. -/
def maintenanceAnnual (p : PropertyData) : ℚ :=
  effectiveGrossIncome p * (p.maintenanceRate / 100)

/-- Annual HOA expense (`hoaAnnual` const). -/
def hoaAnnual (p : PropertyData) : ℚ :=
  p.hoaMonthly * 12

/-- Total operating expenses (`totalOperatingExpenses` const). -/
def totalOperatingExpenses (p : PropertyData) : ℚ :=
  p.propertyTaxAnnual + p.insuranceAnnual + hoaAnnual p + maintenanceAnnual p

/-- Net operating income (`noi` const). -/
def noi (p : PropertyData) : ℚ :=
  effectiveGrossIncome p - totalOperatingExpenses p

/-- Cap rate (`capRate` const), with the `listPrice > 0` guard of the
source's ternary. -/
def capRate (p : PropertyData) : ℚ :=
  if p.listPrice > 0 then noi p / p.listPrice * 100 else 0

/-- Down payment amount (`downPaymentAmount` const). -/
def downPaymentAmount (p : PropertyData) (params : FinancialParams) : ℚ :=
  p.listPrice * (params.downPaymentPercent / 100)

/-- Loan amount (`loanAmount` const). -/
def loanAmount (p : PropertyData) (params : FinancialParams) : ℚ :=
  p.listPrice - downPaymentAmount p params

/-- Monthly mortgage payment: the source initialises it to 0, then the
`if (loanAmount > 0 && interestRate > 0)` branch applies the standard
amortization formula and the `else if (loanAmount > 0 && interestRate === 0)`
branch the straight-line formula. -/
def monthlyMortgagePayment (p : PropertyData) (params : FinancialParams) : ℚ :=
  if loanAmount p params > 0 ∧ params.interestRate > 0 then
    let monthlyRate : ℚ := params.interestRate / 100 / 12
    let numberOfPayments : ℕ := params.loanTermYears * 12
    (loanAmount p params * monthlyRate * (1 + monthlyRate) ^ numberOfPayments) /
      ((1 + monthlyRate) ^ numberOfPayments - 1)
  else if loanAmount p params > 0 ∧ params.interestRate = 0 then
    loanAmount p params / ((params.loanTermYears : ℚ) * 12)
  else 0

/-- Annual debt service (`annualDebtService` const). -/
def annualDebtService (p : PropertyData) (params : FinancialParams) : ℚ :=
  monthlyMortgagePayment p params * 12

/-- Annual cash flow (`annualCashFlow` const). -/
def annualCashFlow (p : PropertyData) (params : FinancialParams) : ℚ :=
  noi p - annualDebtService p params

/-- Closing costs (`closingCosts` const). -/
def closingCosts (p : PropertyData) (params : FinancialParams) : ℚ :=
  p.listPrice * (params.closingCostsPercent / 100)

/-- Total initial investment (`totalInitialInvestment` const). -/
def totalInitialInvestment (p : PropertyData) (params : FinancialParams) : ℚ :=
  downPaymentAmount p params + closingCosts p params

/-- Cash-on-cash return (`cashOnCashReturn` const), with the
`totalInitialInvestment > 0` guard of the source's ternary. -/
def cashOnCashReturn (p : PropertyData) (params : FinancialParams) : ℚ :=
  if totalInitialInvestment p params > 0 then
    annualCashFlow p params / totalInitialInvestment p params * 100
  else 0

/-- The engine: assembles the result record exactly as the source's return
statement does. -/
def calculateMetrics (p : PropertyData) (params : FinancialParams) :
    CalculationResult where
  grossAnnualIncome := potentialGrossIncome p
  effectiveGrossIncome := effectiveGrossIncome p
  totalOperatingExpenses := totalOperatingExpenses p
  noi := noi p
  capRate := capRate p
  monthlyMortgagePayment := monthlyMortgagePayment p params
  annualDebtService := annualDebtService p params
  annualCashFlow := annualCashFlow p params
  cashOnCashReturn := cashOnCashReturn p params
  totalInitialInvestment := totalInitialInvestment p params

/-- Pure core of `handleNumUnitsChange` in `FinancialInputs.tsx`: given the
current rent list, the fallback average rent and the (already clamped) new
unit count, pad with the last known rent — or the fallback when the list is
empty — or truncate. -/
def resizeUnitRents (rents : List ℚ) (fallback : ℚ) (newCount : ℕ) : List ℚ :=
  if rents.length < newCount then
    let fillValue : ℚ := if rents.length > 0 then rents.getLastD fallback else fallback
    rents ++ List.replicate (newCount - rents.length) fillValue
  else
    rents.take newCount

/-! ## Concrete inputs used by the scenario claims and witnesses -/

/-- Scenario A of the spec: single-family fallback rent, 20% down, 6%
interest, 30-year loan, 2% closing costs. -/
def scenarioA : PropertyData where
  listPrice := 200000
  numUnits := 1
  estimatedRentPerUnit := 1500
  unitRents := []
  propertyTaxAnnual := 2400
  insuranceAnnual := 1200
  hoaMonthly := 0
  maintenanceRate := 5
  vacancyRate := 5

/-- Scenario A loan parameters. -/
def scenarioAParams : FinancialParams where
  downPaymentPercent := 20
  interestRate := 6
  loanTermYears := 30
  closingCostsPercent := 2

/-- Scenario B of the spec: three explicit unit rents, with a deliberately
disagreeing `estimatedRentPerUnit`. -/
def scenarioB : PropertyData :=
  { scenarioA with
    numUnits := 3
    unitRents := [1000, 1200, 900]
    estimatedRentPerUnit := 9999 }

/-- Fully-cash edge case with zero list price, used for the
`downPaymentPercent = 100` claim. -/
def scenarioC : PropertyData := { scenarioA with listPrice := 0 }

/-- Loan parameters for the fully-cash edge case: 100% down, no closing
costs. -/
def scenarioCParams : FinancialParams where
  downPaymentPercent := 100
  interestRate := 6
  loanTermYears := 30
  closingCostsPercent := 0

/-- Scenario A loan parameters with a zero interest rate. -/
def scenarioZeroRateParams : FinancialParams :=
  { scenarioAParams with interestRate := 0 }

/-- Scenario A loan parameters with a negative interest rate (outside the
documented range). -/
def scenarioNegRateParams : FinancialParams :=
  { scenarioAParams with interestRate := -1 }

/-! ## Claims -/

/-- C1: if `unitRents` is non-empty, monthly gross income is the sum of its
entries (so gross annual income is 12 times that sum), independent of
`estimatedRentPerUnit` and `numUnits`; if `unitRents` is empty, monthly
gross income is `estimatedRentPerUnit * numUnits`; and
`unitRents = [1000, 1200, 900]` always yields monthly gross income 3100. -/
theorem c1_income_selection (p : PropertyData) (params : FinancialParams) :
    (p.unitRents ≠ [] →
      monthlyGrossIncome p = p.unitRents.sum ∧
      (calculateMetrics p params).grossAnnualIncome = 12 * p.unitRents.sum ∧
      (∀ e : ℚ, ∀ n : ℕ,
        monthlyGrossIncome { p with estimatedRentPerUnit := e, numUnits := n } =
          monthlyGrossIncome p)) ∧
    (p.unitRents = [] →
      monthlyGrossIncome p = p.estimatedRentPerUnit * (p.numUnits : ℚ)) ∧
    (p.unitRents = [1000, 1200, 900] → monthlyGrossIncome p = 3100) := by
  have hfold : ∀ l : List ℚ, l.foldl (fun sum rent => sum + rent) 0 = l.sum := by
    intro l; simp [List.sum_eq_foldl]
  refine ⟨?_, ?_, ?_⟩
  · intro h
    have hlen : 0 < p.unitRents.length := List.length_pos.mpr h
    have hmgi : monthlyGrossIncome p = p.unitRents.sum := by
      rw [monthlyGrossIncome, if_pos hlen, hfold]
    refine ⟨hmgi, ?_, ?_⟩
    · show potentialGrossIncome p = 12 * p.unitRents.sum
      rw [potentialGrossIncome, hmgi]; ring
    · intro e n
      rw [monthlyGrossIncome, monthlyGrossIncome]
      simp only [if_pos hlen]
  · intro h
    rw [monthlyGrossIncome, h]
    simp
  · intro h
    rw [monthlyGrossIncome, if_pos (by rw [h]; decide), h]
    norm_num

/-- C1 witness: Scenario B has monthly gross income 3100 even though
`estimatedRentPerUnit * numUnits` would give a different value. -/
theorem c1_income_selection_witness : monthlyGrossIncome scenarioB = 3100 :=
  (c1_income_selection scenarioB scenarioAParams).2.2 rfl

/-- C2: the loan amount is `listPrice - listPrice * (downPaymentPercent / 100)`
and the monthly mortgage payment follows the three-way case split of the
source: amortization formula when `loanAmount > 0` and `interestRate > 0`,
straight-line when `loanAmount > 0` and `interestRate = 0`, zero when
`loanAmount ≤ 0`. -/
theorem c2_mortgage_cases (p : PropertyData) (params : FinancialParams) :
    loanAmount p params =
      p.listPrice - p.listPrice * (params.downPaymentPercent / 100) ∧
    (loanAmount p params > 0 → params.interestRate > 0 →
      monthlyMortgagePayment p params =
        loanAmount p params * (params.interestRate / 100 / 12) *
            (1 + params.interestRate / 100 / 12) ^ (params.loanTermYears * 12) /
          ((1 + params.interestRate / 100 / 12) ^ (params.loanTermYears * 12) - 1)) ∧
    (loanAmount p params > 0 → params.interestRate = 0 →
      monthlyMortgagePayment p params =
        loanAmount p params / ((params.loanTermYears : ℚ) * 12)) ∧
    (loanAmount p params ≤ 0 → monthlyMortgagePayment p params = 0) := by
  refine ⟨rfl, ?_, ?_, ?_⟩
  · intro hL hr
    rw [monthlyMortgagePayment, if_pos ⟨hL, hr⟩]
  · intro hL hr
    have h1 : ¬(loanAmount p params > 0 ∧ params.interestRate > 0) := by
      rintro ⟨-, hgt⟩; rw [hr] at hgt; exact lt_irrefl 0 hgt
    rw [monthlyMortgagePayment, if_neg h1, if_pos ⟨hL, hr⟩]
  · intro hL
    have hn : ¬(loanAmount p params > 0) := not_lt.mpr hL
    have h1 : ¬(loanAmount p params > 0 ∧ params.interestRate > 0) := by
      rintro ⟨h, -⟩; exact hn h
    have h2 : ¬(loanAmount p params > 0 ∧ params.interestRate = 0) := by
      rintro ⟨h, -⟩; exact hn h
    rw [monthlyMortgagePayment, if_neg h1, if_neg h2]

/-- C2 witness: with Scenario A facts and a zero interest rate, the payment
is the straight-line quotient. -/
theorem c2_mortgage_cases_witness :
    monthlyMortgagePayment scenarioA scenarioZeroRateParams =
      loanAmount scenarioA scenarioZeroRateParams /
        ((scenarioZeroRateParams.loanTermYears : ℚ) * 12) :=
  (c2_mortgage_cases scenarioA scenarioZeroRateParams).2.2.1
    (by norm_num [loanAmount, downPaymentAmount, scenarioA,
      scenarioZeroRateParams, scenarioAParams]) rfl

/-- C3: maintenance is charged on effective (post-vacancy) gross income, and
total operating expenses and NOI assemble as the source does. -/
theorem c3_expenses (p : PropertyData) :
    maintenanceAnnual p =
      (potentialGrossIncome p - vacancyLoss p) * (p.maintenanceRate / 100) ∧
    maintenanceAnnual p = effectiveGrossIncome p * (p.maintenanceRate / 100) ∧
    totalOperatingExpenses p =
      p.propertyTaxAnnual + p.insuranceAnnual + p.hoaMonthly * 12 +
        maintenanceAnnual p ∧
    noi p = effectiveGrossIncome p - totalOperatingExpenses p :=
  ⟨rfl, rfl, rfl, rfl⟩

/-- C4: cap rate is `noi / listPrice * 100` when `listPrice > 0` and the
defined fallback 0 when `listPrice = 0`. -/
theorem c4_cap_rate (p : PropertyData) :
    (p.listPrice > 0 → capRate p = noi p / p.listPrice * 100) ∧
    (p.listPrice = 0 → capRate p = 0) := by
  constructor
  · intro h; rw [capRate, if_pos h]
  · intro h
    have : ¬ p.listPrice > 0 := by rw [h]; exact lt_irrefl 0
    rw [capRate, if_neg this]

/-- C4 witness: Scenario A has a positive list price, so its cap rate is the
quotient form. -/
theorem c4_cap_rate_witness :
    capRate scenarioA = noi scenarioA / scenarioA.listPrice * 100 :=
  (c4_cap_rate scenarioA).1 (by norm_num [scenarioA])

/-- C5: total initial investment is down payment plus closing costs, and
cash-on-cash return is the guarded quotient with fallback 0. -/
theorem c5_cash_on_cash (p : PropertyData) (params : FinancialParams) :
    totalInitialInvestment p params =
      p.listPrice * (params.downPaymentPercent / 100) +
        p.listPrice * (params.closingCostsPercent / 100) ∧
    (totalInitialInvestment p params > 0 →
      cashOnCashReturn p params =
        annualCashFlow p params / totalInitialInvestment p params * 100) ∧
    (totalInitialInvestment p params ≤ 0 → cashOnCashReturn p params = 0) := by
  refine ⟨rfl, ?_, ?_⟩
  · intro h; rw [cashOnCashReturn, if_pos h]
  · intro h; rw [cashOnCashReturn, if_neg (not_lt.mpr h)]

/-- C5 witness: Scenario A has a positive initial investment, so its
cash-on-cash return is the quotient form. -/
theorem c5_cash_on_cash_witness :
    cashOnCashReturn scenarioA scenarioAParams =
      annualCashFlow scenarioA scenarioAParams /
        totalInitialInvestment scenarioA scenarioAParams * 100 :=
  (c5_cash_on_cash scenarioA scenarioAParams).2.1
    (by norm_num [totalInitialInvestment, downPaymentAmount, closingCosts,
      scenarioA, scenarioAParams])

/-- C7: with a 100% down payment the loan amount is 0, so the payment and
debt service vanish and cash flow equals NOI; with zero closing costs the
initial investment is the list price, and a zero list price forces the
cash-on-cash fallback 0. -/
theorem c7_full_cash (p : PropertyData) (params : FinancialParams)
    (hd : params.downPaymentPercent = 100) :
    loanAmount p params = 0 ∧
    monthlyMortgagePayment p params = 0 ∧
    annualDebtService p params = 0 ∧
    annualCashFlow p params = noi p ∧
    (params.closingCostsPercent = 0 →
      totalInitialInvestment p params = p.listPrice ∧
      (p.listPrice = 0 → cashOnCashReturn p params = 0)) := by
  have hL : loanAmount p params = 0 := by
    rw [loanAmount, downPaymentAmount, hd]; ring
  have hn : ¬(loanAmount p params > 0) := by rw [hL]; exact lt_irrefl 0
  have hM : monthlyMortgagePayment p params = 0 := by
    rw [monthlyMortgagePayment, if_neg (by rintro ⟨h, -⟩; exact hn h),
      if_neg (by rintro ⟨h, -⟩; exact hn h)]
  have hADS : annualDebtService p params = 0 := by
    rw [annualDebtService, hM]; ring
  refine ⟨hL, hM, hADS, ?_, ?_⟩
  · rw [annualCashFlow, hADS]; ring
  · intro hc
    have hTII : totalInitialInvestment p params = p.listPrice := by
      rw [totalInitialInvestment, downPaymentAmount, closingCosts, hd, hc]; ring
    refine ⟨hTII, fun h0 => ?_⟩
    have : ¬ totalInitialInvestment p params > 0 := by
      rw [hTII, h0]; exact lt_irrefl 0
    rw [cashOnCashReturn, if_neg this]

/-- C7 witness: at a zero list price with 100% down and no closing costs,
the payment is 0, the initial investment equals the (zero) list price, and
the cash-on-cash return falls back to 0. -/
theorem c7_full_cash_witness :
    monthlyMortgagePayment scenarioC scenarioCParams = 0 ∧
    totalInitialInvestment scenarioC scenarioCParams = scenarioC.listPrice ∧
    cashOnCashReturn scenarioC scenarioCParams = 0 :=
  ⟨(c7_full_cash scenarioC scenarioCParams rfl).2.1,
    ((c7_full_cash scenarioC scenarioCParams rfl).2.2.2.2 rfl).1,
    ((c7_full_cash scenarioC scenarioCParams rfl).2.2.2.2 rfl).2 rfl⟩

/-- C10: a positive loan amount with a negative interest rate matches
neither mortgage branch, so the payment and annual debt service are
silently 0. -/
theorem c10_negative_rate (p : PropertyData) (params : FinancialParams)
    (_hL : loanAmount p params > 0) (hr : params.interestRate < 0) :
    monthlyMortgagePayment p params = 0 ∧ annualDebtService p params = 0 := by
  have h1 : ¬(loanAmount p params > 0 ∧ params.interestRate > 0) := by
    rintro ⟨-, h⟩; exact absurd h (not_lt.mpr hr.le)
  have h2 : ¬(loanAmount p params > 0 ∧ params.interestRate = 0) := by
    rintro ⟨-, h⟩; exact absurd h (ne_of_lt hr)
  have hM : monthlyMortgagePayment p params = 0 := by
    rw [monthlyMortgagePayment, if_neg h1, if_neg h2]
  exact ⟨hM, by rw [annualDebtService, hM]; ring⟩

/-- C10 witness: Scenario A facts with interest rate −1 give a zero payment
despite a 160000 loan amount. -/
theorem c10_negative_rate_witness :
    monthlyMortgagePayment scenarioA scenarioNegRateParams = 0 ∧
    annualDebtService scenarioA scenarioNegRateParams = 0 :=
  c10_negative_rate scenarioA scenarioNegRateParams
    (by norm_num [loanAmount, downPaymentAmount, scenarioA,
      scenarioNegRateParams, scenarioAParams])
    (by norm_num [scenarioNegRateParams, scenarioAParams])

/-- Closed form of the Scenario A mortgage payment as a rational
expression in the 360th power of the monthly growth factor 201/200. -/
theorem scenarioA_payment :
    monthlyMortgagePayment scenarioA scenarioAParams =
      800 * (201 / 200 : ℚ) ^ 360 / ((201 / 200 : ℚ) ^ 360 - 1) := by
  have hL : loanAmount scenarioA scenarioAParams = 160000 := by
    norm_num [loanAmount, downPaymentAmount, scenarioA, scenarioAParams]
  rw [monthlyMortgagePayment,
    if_pos ⟨by rw [hL]; norm_num, by norm_num [scenarioAParams]⟩]
  show loanAmount scenarioA scenarioAParams *
        (scenarioAParams.interestRate / 100 / 12) *
        (1 + scenarioAParams.interestRate / 100 / 12) ^
          (scenarioAParams.loanTermYears * 12) /
      ((1 + scenarioAParams.interestRate / 100 / 12) ^
          (scenarioAParams.loanTermYears * 12) - 1) = _
  rw [hL]
  norm_num [scenarioAParams]

/-- C6: on Scenario A the engine returns gross annual income 18000,
effective gross income 17100, operating expenses 4455, NOI 12645, cap rate
6.3225 and initial investment 44000 exactly, and monthly payment, annual
debt service, annual cash flow and cash-on-cash return within the stated
approximations 959.28, 11511.4, 1133.6 and 2.576. -/
theorem c6_scenario_a :
    (calculateMetrics scenarioA scenarioAParams).grossAnnualIncome = 18000 ∧
    (calculateMetrics scenarioA scenarioAParams).effectiveGrossIncome = 17100 ∧
    (calculateMetrics scenarioA scenarioAParams).totalOperatingExpenses = 4455 ∧
    (calculateMetrics scenarioA scenarioAParams).noi = 12645 ∧
    (calculateMetrics scenarioA scenarioAParams).capRate = 6.3225 ∧
    (calculateMetrics scenarioA scenarioAParams).totalInitialInvestment = 44000 ∧
    |(calculateMetrics scenarioA scenarioAParams).monthlyMortgagePayment -
      959.28| < 0.01 ∧
    |(calculateMetrics scenarioA scenarioAParams).annualDebtService -
      11511.4| < 0.1 ∧
    |(calculateMetrics scenarioA scenarioAParams).annualCashFlow -
      1133.6| < 0.1 ∧
    |(calculateMetrics scenarioA scenarioAParams).cashOnCashReturn -
      2.576| < 0.01 := by
  have hq_lo : (959281 : ℚ) / 159281 < (201 / 200 : ℚ) ^ 360 := by norm_num
  have hq_hi : (201 / 200 : ℚ) ^ 360 < 11991 / 1991 := by norm_num
  have hq1 : (1 : ℚ) < (201 / 200 : ℚ) ^ 360 := lt_trans (by norm_num) hq_lo
  have hP := scenarioA_payment
  have hPlo : (95928 : ℚ) / 100 <
      monthlyMortgagePayment scenarioA scenarioAParams := by
    rw [hP, lt_div_iff₀ (by linarith)]
    linarith
  have hPhi : monthlyMortgagePayment scenarioA scenarioAParams <
      959281 / 1000 := by
    rw [hP, div_lt_iff₀ (by linarith)]
    linarith
  have hPGI : potentialGrossIncome scenarioA = 18000 := by
    norm_num [potentialGrossIncome, monthlyGrossIncome, scenarioA]
  have hEGI : effectiveGrossIncome scenarioA = 17100 := by
    rw [effectiveGrossIncome, vacancyLoss, hPGI]
    norm_num [scenarioA]
  have hOPEX : totalOperatingExpenses scenarioA = 4455 := by
    rw [totalOperatingExpenses, maintenanceAnnual, hoaAnnual, hEGI]
    norm_num [scenarioA]
  have hNOI : noi scenarioA = 12645 := by
    rw [noi, hEGI, hOPEX]; norm_num
  have hCAP : capRate scenarioA = 6.3225 := by
    rw [capRate, if_pos (by norm_num [scenarioA] : scenarioA.listPrice > 0),
      hNOI]
    norm_num [scenarioA]
  have hTII : totalInitialInvestment scenarioA scenarioAParams = 44000 := by
    norm_num [totalInitialInvestment, downPaymentAmount, closingCosts,
      scenarioA, scenarioAParams]
  have hACF : annualCashFlow scenarioA scenarioAParams =
      12645 - monthlyMortgagePayment scenarioA scenarioAParams * 12 := by
    rw [annualCashFlow, annualDebtService, hNOI]
  have hCoC : cashOnCashReturn scenarioA scenarioAParams =
      (12645 - monthlyMortgagePayment scenarioA scenarioAParams * 12) /
        44000 * 100 := by
    rw [cashOnCashReturn, hTII, hACF, if_pos (by norm_num : (44000 : ℚ) > 0)]
  refine ⟨hPGI, hEGI, hOPEX, hNOI, hCAP, hTII, ?_, ?_, ?_, ?_⟩
  · show |monthlyMortgagePayment scenarioA scenarioAParams - 959.28| < 0.01
    rw [abs_sub_lt_iff]
    constructor <;> linarith
  · show |monthlyMortgagePayment scenarioA scenarioAParams * 12 - 11511.4| <
      0.1
    rw [abs_sub_lt_iff]
    constructor <;> linarith
  · show |annualCashFlow scenarioA scenarioAParams - 1133.6| < 0.1
    rw [hACF, abs_sub_lt_iff]
    constructor <;> linarith
  · show |cashOnCashReturn scenarioA scenarioAParams - 2.576| < 0.01
    rw [hCoC, abs_sub_lt_iff]
    constructor <;> linarith

/-- C8: the engine is total — it returns a result record on every input —
and each division is guarded: the amortization denominator is nonzero
whenever the interest rate is positive and the loan term is at least one
year, a non-positive list price forces cap rate 0, and a non-positive
initial investment forces cash-on-cash return 0. -/
theorem c8_totality_guards (p : PropertyData) (params : FinancialParams) :
    (∃ r : CalculationResult, calculateMetrics p params = r) ∧
    (params.interestRate > 0 → 1 ≤ params.loanTermYears →
      (1 + params.interestRate / 100 / 12) ^ (params.loanTermYears * 12) - 1 ≠
        0) ∧
    (¬ p.listPrice > 0 → capRate p = 0) ∧
    (¬ totalInitialInvestment p params > 0 → cashOnCashReturn p params = 0) := by
  refine ⟨⟨calculateMetrics p params, rfl⟩, ?_, ?_, ?_⟩
  · intro hr hn
    have hrate : (0 : ℚ) < params.interestRate / 100 / 12 := by positivity
    have h1 : (1 : ℚ) < 1 + params.interestRate / 100 / 12 := by linarith
    have hne : params.loanTermYears * 12 ≠ 0 := by omega
    exact sub_ne_zero.mpr (ne_of_gt (one_lt_pow₀ h1 hne))
  · intro h; rw [capRate, if_neg h]
  · intro h; rw [cashOnCashReturn, if_neg h]

/-- C8 witness: with Scenario A parameters (6% interest, 30 years) the
amortization denominator is nonzero. -/
theorem c8_totality_guards_witness :
    (1 + scenarioAParams.interestRate / 100 / 12) ^
        (scenarioAParams.loanTermYears * 12) - 1 ≠ 0 :=
  (c8_totality_guards scenarioA scenarioAParams).2.1
    (by norm_num [scenarioAParams]) (by norm_num [scenarioAParams])

/-- Branch-free description of the resize helper: pad with the last element
(`getLastD` supplies the fallback for an empty list) or truncate. -/
theorem resizeUnitRents_eq (rents : List ℚ) (fallback : ℚ) (n : ℕ) :
    resizeUnitRents rents fallback n =
      if rents.length < n then
        rents ++ List.replicate (n - rents.length) (rents.getLastD fallback)
      else rents.take n := by
  cases rents with
  | nil => rw [resizeUnitRents]; split_ifs <;> rfl
  | cons a l =>
    rw [resizeUnitRents]
    split_ifs with h1 h2
    · rfl
    · exact absurd (by simp) h2
    · rfl

/-- C9: for a new unit count `n ≥ 1` the resized rent list has length `n`,
keeps indices below `min (old length) n` unchanged, and fills any new slots
with the last element of the old list, or with the fallback average when the
old list was empty. -/
theorem c9_resize (rents : List ℚ) (fallback : ℚ) (n : ℕ) (_hn : 1 ≤ n) :
    (resizeUnitRents rents fallback n).length = n ∧
    (∀ i : ℕ, i < min rents.length n →
      (resizeUnitRents rents fallback n)[i]? = rents[i]?) ∧
    (∀ i : ℕ, rents.length ≤ i → i < n →
      (resizeUnitRents rents fallback n)[i]? =
        some (rents.getLastD fallback)) := by
  rw [resizeUnitRents_eq]
  by_cases h : rents.length < n
  · rw [if_pos h]
    refine ⟨?_, ?_, ?_⟩
    · simp only [List.length_append, List.length_replicate]
      omega
    · intro i hi
      have hi2 : i < rents.length := by omega
      simp [List.getElem?_append, hi2]
    · intro i h1 h2
      rw [List.getElem?_append_right h1]
      have h3 : i - rents.length < n - rents.length := by omega
      simp [List.getElem?_replicate, h3]
  · rw [if_neg h]
    push_neg at h
    refine ⟨?_, ?_, ?_⟩
    · rw [List.length_take]; omega
    · intro i hi
      have hi2 : i < n := by omega
      simp [List.getElem?_take, hi2]
    · intro i h1 h2
      omega

/-- C9 witness: resizing the two-element list `[10, 20]` to four units pads
to length 4. -/
theorem c9_resize_witness : (resizeUnitRents [10, 20] 7 4).length = 4 :=
  (c9_resize [10, 20] 7 4 (by decide)).1
